import Mathlib

/-!
Verification of the DynamoDB Streams client (`dynamodb/streams.go`).

The file shallow-embeds the stream operations of the source: the data
structures (`SequenceNumberRangeT`, `ShardT`, `StreamDescriptionT`,
`StreamRecordT`, `RecordT`, the response wrappers) and the four operations
`DescribeStream`, `ListStreams`, `GetShardIteratorWithSeqNumber` /
`GetShardIterator`, `GetRecordsWithLimit` / `GetRecords`.

The lower-level request-response collaborator (`Server.queryServer`, the
query builders and `json.Unmarshal`) lives outside the verified source and
is modelled abstractly: a `ServerModel` maps a (target, query) pair to
either an error or a raw response, and each operation receives the decoder
for its own response type.  The raw-response type is a type parameter,
standing for the JSON bytes.  The oracle additionally receives an attempt
index: the embedded operations always call it at attempt `0`, exactly
mirroring the single call the source makes, while the index lets theorems
about retry behaviour distinguish providers whose answers vary between a
first and a repeated attempt.

Go multi-value returns are kept as tuples: a `nil` pointer or `nil` slice
becomes `none`, a `nil` error becomes `none`, the empty string stays `""`.
-/

/-- Modelled from the spec: the error taxonomy of §7 (`NotFound`,
`ThrottledRetryable`, ...), identified by a code string.  The concrete Go
error type lives outside the verified source. -/
structure GoErr where
  code : String
deriving DecidableEq, Repr

/-- Go: `type ShardIteratorType string`. -/
abbrev ShardIteratorType := String

/-- Go: `type StreamStatus string`. -/
abbrev StreamStatus := String

/-- Go: `type StreamViewType string`. -/
abbrev StreamViewType := String

/-- Start reading exactly from the position denoted by a sequence number. -/
def ShardIteratorAtSequenceNumber : ShardIteratorType := "AT_SEQUENCE_NUMBER"

/-- Start reading right after the position denoted by a sequence number. -/
def ShardIteratorAfterSequenceNumber : ShardIteratorType := "AFTER_SEQUENCE_NUMBER"

/-- Start reading at the oldest untrimmed record in the shard. -/
def ShardIteratorTrimHorizon : ShardIteratorType := "TRIM_HORIZON"

/-- Start reading just after the most recent record in the shard. -/
def ShardIteratorLatest : ShardIteratorType := "LATEST"

/-- The stream is being created. -/
def StreamStatusCreating : StreamStatus := "CREATING"

/-- The stream is being deleted. -/
def StreamStatusDeleting : StreamStatus := "DELETING"

/-- The stream exists and is ready for read and write operations. -/
def StreamStatusActive : StreamStatus := "ACTIVE"

/-- Shards in the stream are being merged or split. -/
def StreamStatusUpdating : StreamStatus := "UPDATING"

/-- The range of possible sequence numbers for the shard (Go
`SequenceNumberRangeT`; an empty `EndingSequenceNumber` means the shard is
still open for writes). -/
structure SequenceNumberRangeT where
  EndingSequenceNumber : String
  StartingSequenceNumber : String
deriving DecidableEq, Repr

/-- A uniquely identified group of data records (Go `ShardT`; an empty
`ParentShardId` means the shard is a root). -/
structure ShardT where
  ParentShardId : String
  SequenceNumberRange : SequenceNumberRangeT
  ShardId : String
deriving DecidableEq, Repr

/-- Modelled from the spec: one entry of the key schema, an attribute
name/type pair (§3).  The Go `KeySchemaT` is declared outside the verified
source. -/
structure KeySchemaT where
  AttributeName : String
  KeyType : String
deriving DecidableEq, Repr

/-- Description of a stream (Go `StreamDescriptionT`).  Note the
`LastEvaluatedShardId` pagination cursor is part of the value handed back
to the caller. -/
structure StreamDescriptionT where
  KeySchema : List KeySchemaT
  LastEvaluatedShardId : String
  Shards : List ShardT
  StreamARN : String
  StreamID : String
  StreamStatus : StreamStatus
  TableName : String
deriving DecidableEq, Repr

/-- Represents the output of a DescribeStream operation (Go
`describeStreamResponse`). -/
structure describeStreamResponse where
  StreamDescription : StreamDescriptionT
deriving DecidableEq, Repr

/-- Go `listStreamsResponse`: one page of stream ids plus the pagination
cursor. -/
structure listStreamsResponse where
  LastEvaluatedStreamId : String
  StreamIds : List String
deriving DecidableEq, Repr

/-- Go `getShardIteratorResponse`. -/
structure getShardIteratorResponse where
  ShardIterator : String
deriving DecidableEq, Repr

/-- Modelled from the spec: an attribute map (keys / old image / new
image) of a change record.  The Go `dynamizer.DynamoItem` is declared
outside the verified source. -/
abbrev DynamoItem := List (String × String)

/-- Go `StreamRecordT`. -/
structure StreamRecordT where
  Keys : DynamoItem
  NewImage : DynamoItem
  OldImage : DynamoItem
  SequenceNumber : String
  SizeBytes : Int
  StreamViewType : String
deriving DecidableEq, Repr

/-- Go `RecordT`. -/
structure RecordT where
  AwsRegion : String
  DynamoDB : StreamRecordT
  EventID : String
  EventName : String
  EventSource : String
  EventVersion : String
deriving DecidableEq, Repr

/-- Go `getRecordsResponse`: one page of records plus the successor
cursor (empty string when absent). -/
structure getRecordsResponse where
  NextShardIterator : String
  Records : List RecordT
deriving DecidableEq, Repr

/-- Modelled from the spec: the queries the verified source builds before
calling the collaborator.  Each constructor records exactly the parameters
the source passes to the corresponding query builder (`NewEmptyQuery`
followed by `AddDescribeStreamRequest`, `addTableByName`,
`AddGetShardIteratorRequest` or `AddGetRecordsRequest`); in particular no
query carries a pagination cursor, because the source never supplies
one. -/
inductive Query where
  | describeStreamRequest (streamId : String)
  | tableByName (tableName : String)
  | getShardIteratorRequest (streamId shardId shardIteratorType seqNumber : String)
  | getRecordsRequest (shardIterator : String) (limit : Int)
deriving DecidableEq, Repr

/-- Modelled from the spec: transport-level request construction is out of
scope, so the wire target of an operation is identified with its name. -/
def target (operation : String) : String := operation

/-- Modelled from the spec: the lower-level request-response collaborator
(`Server.queryServer`).  `Raw` stands for the JSON response bytes.  The
first argument is the attempt index: the verified source always calls at
attempt `0`. -/
structure ServerModel (Raw : Type) where
  queryServer : Nat → String → Query → Except GoErr Raw

/-- Go `Table`: the receiver of all stream operations, holding the table
name and the server collaborator. -/
structure Table (Raw : Type) where
  Name : String
  Server : ServerModel Raw

/-- Go `Table.DescribeStream`: one `DescribeStream` query for the given
stream id, decoded into a `describeStreamResponse`; the inner
`StreamDescription` is returned.  Errors of either stage are returned with
a nil result pointer. -/
def Table.DescribeStream {Raw : Type} (t : Table Raw)
    (unmarshal : Raw → Except GoErr describeStreamResponse)
    (streamId : String) : Option StreamDescriptionT × Option GoErr :=
  match t.Server.queryServer 0 (target "DescribeStream") (Query.describeStreamRequest streamId) with
  | Except.error err => (none, some err)
  | Except.ok jsonResponse =>
    match unmarshal jsonResponse with
    | Except.error err => (none, some err)
    | Except.ok r => (some r.StreamDescription, none)

/-- Go `Table.ListStreams`: one `ListStreams` query carrying only the
table name, decoded into a `listStreamsResponse`; the page's `StreamIds`
are returned.  Errors of either stage are returned with a nil slice. -/
def Table.ListStreams {Raw : Type} (t : Table Raw)
    (unmarshal : Raw → Except GoErr listStreamsResponse) :
    Option (List String) × Option GoErr :=
  match t.Server.queryServer 0 (target "ListStreams") (Query.tableByName t.Name) with
  | Except.error err => (none, some err)
  | Except.ok jsonResponse =>
    match unmarshal jsonResponse with
    | Except.error err => (none, some err)
    | Except.ok r => (some r.StreamIds, none)

/-- Go `Table.GetShardIteratorWithSeqNumber`: one `GetShardIterator` query
carrying the stream id, shard id, iterator type and sequence number
verbatim; the decoded `ShardIterator` is returned.  Errors of either stage
are returned with an empty iterator string. -/
def Table.GetShardIteratorWithSeqNumber {Raw : Type} (t : Table Raw)
    (unmarshal : Raw → Except GoErr getShardIteratorResponse)
    (streamId shardId : String) (shardIteratorType : ShardIteratorType)
    (seqNumber : String) : String × Option GoErr :=
  match t.Server.queryServer 0 (target "GetShardIterator")
      (Query.getShardIteratorRequest streamId shardId shardIteratorType seqNumber) with
  | Except.error err => ("", some err)
  | Except.ok jsonResponse =>
    match unmarshal jsonResponse with
    | Except.error err => ("", some err)
    | Except.ok r => (r.ShardIterator, none)

/-- Go `Table.GetShardIterator`: delegates to
`GetShardIteratorWithSeqNumber` with the empty sequence number. -/
def Table.GetShardIterator {Raw : Type} (t : Table Raw)
    (unmarshal : Raw → Except GoErr getShardIteratorResponse)
    (streamId shardId : String) (shardIteratorType : ShardIteratorType) :
    String × Option GoErr :=
  Table.GetShardIteratorWithSeqNumber t unmarshal streamId shardId shardIteratorType ""

/-- Go `Table.GetRecordsWithLimit`: one `GetRecords` query carrying the
shard iterator and limit; the decoded successor iterator and record page
are returned.  Errors of either stage are returned with an empty iterator
and a nil record slice. -/
def Table.GetRecordsWithLimit {Raw : Type} (t : Table Raw)
    (unmarshal : Raw → Except GoErr getRecordsResponse)
    (shardIterator : String) (limit : Int) :
    String × Option (List RecordT) × Option GoErr :=
  match t.Server.queryServer 0 (target "GetRecords") (Query.getRecordsRequest shardIterator limit) with
  | Except.error err => ("", none, some err)
  | Except.ok jsonResponse =>
    match unmarshal jsonResponse with
    | Except.error err => ("", none, some err)
    | Except.ok r => (r.NextShardIterator, some r.Records, none)

/-- Go `Table.GetRecords`: delegates to `GetRecordsWithLimit` with
limit `0`. -/
def Table.GetRecords {Raw : Type} (t : Table Raw)
    (unmarshal : Raw → Except GoErr getRecordsResponse)
    (shardIterator : String) :
    String × Option (List RecordT) × Option GoErr :=
  Table.GetRecordsWithLimit t unmarshal shardIterator 0

/-- C8: for every provider, decoder, table and shard iterator string,
`GetRecords shardIterator` returns exactly the same triple as
`GetRecordsWithLimit shardIterator 0`. -/
theorem getRecords_eq_withLimit_zero {Raw : Type} (t : Table Raw)
    (unmarshal : Raw → Except GoErr getRecordsResponse) (shardIterator : String) :
    Table.GetRecords t unmarshal shardIterator =
      Table.GetRecordsWithLimit t unmarshal shardIterator 0 := rfl

/-- C9: for every provider, decoder, table, stream id, shard id and
iterator type (including `AT_SEQUENCE_NUMBER` and
`AFTER_SEQUENCE_NUMBER`), `GetShardIterator` returns exactly the same pair
as `GetShardIteratorWithSeqNumber` with the empty sequence number. -/
theorem getShardIterator_eq_withSeqNumber_empty {Raw : Type} (t : Table Raw)
    (unmarshal : Raw → Except GoErr getShardIteratorResponse)
    (streamId shardId : String) (shardIteratorType : ShardIteratorType) :
    Table.GetShardIterator t unmarshal streamId shardId shardIteratorType =
      Table.GetShardIteratorWithSeqNumber t unmarshal streamId shardId shardIteratorType "" := rfl

/-- A concrete stream record used by witnesses. -/
def sampleStreamRecord : StreamRecordT :=
  { Keys := [("id", "1")], NewImage := [("id", "1"), ("v", "a")], OldImage := [],
    SequenceNumber := "101", SizeBytes := 12, StreamViewType := "NEW_AND_OLD_IMAGE" }

/-- A concrete change record used by witnesses. -/
def sampleRecord : RecordT :=
  { AwsRegion := "us-east-1", DynamoDB := sampleStreamRecord, EventID := "e1",
    EventName := "INSERT", EventSource := "aws:dynamodb", EventVersion := "1.0" }

/-- A concrete one-record page with a successor cursor. -/
def samplePage : getRecordsResponse :=
  { NextShardIterator := "next-1", Records := [sampleRecord] }

/-- A provider that always serves `samplePage`. -/
def recordsServer : ServerModel getRecordsResponse :=
  ⟨fun _ _ _ => Except.ok samplePage⟩

/-- C5: on every successful fetch, `GetRecordsWithLimit` returns exactly
the record sequence decoded from the provider's response, in the same
order, together with the provider's successor cursor — nothing is
reordered, dropped or inserted by this layer. -/
theorem getRecordsWithLimit_preserves_records {Raw : Type} (sm : ServerModel Raw)
    (unmarshal : Raw → Except GoErr getRecordsResponse)
    (tname shardIterator : String) (limit : Int) (raw : Raw) (r : getRecordsResponse)
    (hq : sm.queryServer 0 (target "GetRecords") (Query.getRecordsRequest shardIterator limit) =
      Except.ok raw)
    (hu : unmarshal raw = Except.ok r) :
    Table.GetRecordsWithLimit ⟨tname, sm⟩ unmarshal shardIterator limit =
      (r.NextShardIterator, some r.Records, none) := by
  simp only [Table.GetRecordsWithLimit, hq, hu]

/-- Witness for C5 at a concrete provider and page. -/
theorem getRecordsWithLimit_preserves_records_witness :
    Table.GetRecordsWithLimit ⟨"tbl", recordsServer⟩ Except.ok "it-0" 0 =
      ("next-1", some [sampleRecord], none) :=
  getRecordsWithLimit_preserves_records recordsServer Except.ok "tbl" "it-0" 0
    samplePage samplePage rfl rfl

/-- Modelled from the spec: a shard is considered exhausted exactly when a
fetch returns no successor cursor (§4.4); absence of the cursor is the
empty string. -/
def shardExhausted (nextShardIterator : String) : Bool :=
  nextShardIterator == ""

/-- C7: on a successful fetch the layer hands back the provider's
successor cursor verbatim, so a zero-record page with a present cursor is
not treated as exhaustion, and exhaustion holds exactly when the fetch
returned no successor cursor. -/
theorem getRecords_empty_page_not_exhaustion {Raw : Type} (sm : ServerModel Raw)
    (unmarshal : Raw → Except GoErr getRecordsResponse)
    (tname shardIterator : String) (limit : Int) (raw : Raw) (r : getRecordsResponse)
    (hq : sm.queryServer 0 (target "GetRecords") (Query.getRecordsRequest shardIterator limit) =
      Except.ok raw)
    (hu : unmarshal raw = Except.ok r) :
    (r.Records = [] → r.NextShardIterator ≠ "" →
      shardExhausted (Table.GetRecordsWithLimit ⟨tname, sm⟩ unmarshal shardIterator limit).1 = false)
    ∧ (shardExhausted (Table.GetRecordsWithLimit ⟨tname, sm⟩ unmarshal shardIterator limit).1 = true ↔
        r.NextShardIterator = "") := by
  simp only [Table.GetRecordsWithLimit, hq, hu, shardExhausted]
  constructor
  · intro _ hne
    simpa using hne
  · simp

/-- A concrete zero-record page whose successor cursor is present. -/
def emptyPageServer : ServerModel getRecordsResponse :=
  ⟨fun _ _ _ => Except.ok { NextShardIterator := "next-2", Records := [] }⟩

/-- Witness for C7: an empty page with cursor `"next-2"` is not
exhaustion. -/
theorem getRecords_empty_page_not_exhaustion_witness :
    shardExhausted (Table.GetRecordsWithLimit ⟨"tbl", emptyPageServer⟩ Except.ok "it-0" 0).1 = false :=
  (getRecords_empty_page_not_exhaustion emptyPageServer Except.ok "tbl" "it-0" 0
    { NextShardIterator := "next-2", Records := [] }
    { NextShardIterator := "next-2", Records := [] } rfl rfl).1 rfl (by decide)

/-- C10: whenever one of the four operations returns a non-nil error —
from either the query stage or the decode stage — every other component of
its return value is the zero value (nil pointer, nil slice, empty
string). -/
theorem error_implies_zero_values {Raw : Type} (sm : ServerModel Raw)
    (dDS : Raw → Except GoErr describeStreamResponse)
    (dLS : Raw → Except GoErr listStreamsResponse)
    (dSI : Raw → Except GoErr getShardIteratorResponse)
    (dGR : Raw → Except GoErr getRecordsResponse)
    (tname streamId shardId shardIterator : String)
    (shardIteratorType : ShardIteratorType) (seqNumber : String) (limit : Int) :
    ((Table.DescribeStream ⟨tname, sm⟩ dDS streamId).2.isSome = true →
      (Table.DescribeStream ⟨tname, sm⟩ dDS streamId).1 = none)
    ∧ ((Table.ListStreams ⟨tname, sm⟩ dLS).2.isSome = true →
      (Table.ListStreams ⟨tname, sm⟩ dLS).1 = none)
    ∧ ((Table.GetShardIteratorWithSeqNumber ⟨tname, sm⟩ dSI streamId shardId
          shardIteratorType seqNumber).2.isSome = true →
      (Table.GetShardIteratorWithSeqNumber ⟨tname, sm⟩ dSI streamId shardId
          shardIteratorType seqNumber).1 = "")
    ∧ ((Table.GetRecordsWithLimit ⟨tname, sm⟩ dGR shardIterator limit).2.2.isSome = true →
      (Table.GetRecordsWithLimit ⟨tname, sm⟩ dGR shardIterator limit).1 = ""
        ∧ (Table.GetRecordsWithLimit ⟨tname, sm⟩ dGR shardIterator limit).2.1 = none) := by
  refine ⟨?_, ?_, ?_, ?_⟩
  · cases hq : sm.queryServer 0 (target "DescribeStream") (Query.describeStreamRequest streamId) with
    | error e => intro _; simp [Table.DescribeStream, hq]
    | ok raw =>
      cases hu : dDS raw with
      | error e => intro _; simp [Table.DescribeStream, hq, hu]
      | ok r => intro h; simp [Table.DescribeStream, hq, hu] at h
  · cases hq : sm.queryServer 0 (target "ListStreams") (Query.tableByName tname) with
    | error e => intro _; simp [Table.ListStreams, hq]
    | ok raw =>
      cases hu : dLS raw with
      | error e => intro _; simp [Table.ListStreams, hq, hu]
      | ok r => intro h; simp [Table.ListStreams, hq, hu] at h
  · cases hq : sm.queryServer 0 (target "GetShardIterator")
        (Query.getShardIteratorRequest streamId shardId shardIteratorType seqNumber) with
    | error e => intro _; simp [Table.GetShardIteratorWithSeqNumber, hq]
    | ok raw =>
      cases hu : dSI raw with
      | error e => intro _; simp [Table.GetShardIteratorWithSeqNumber, hq, hu]
      | ok r => intro h; simp [Table.GetShardIteratorWithSeqNumber, hq, hu] at h
  · cases hq : sm.queryServer 0 (target "GetRecords")
        (Query.getRecordsRequest shardIterator limit) with
    | error e => intro _; simp [Table.GetRecordsWithLimit, hq]
    | ok raw =>
      cases hu : dGR raw with
      | error e => intro _; simp [Table.GetRecordsWithLimit, hq, hu]
      | ok r => intro h; simp [Table.GetRecordsWithLimit, hq, hu] at h

/-- A provider whose every call fails with an internal error. -/
def errServer : ServerModel Unit :=
  ⟨fun _ _ _ => Except.error ⟨"InternalServerError"⟩⟩

/-- Witness for C10 at the always-failing provider. -/
theorem error_implies_zero_values_witness :
    (Table.DescribeStream ⟨"tbl", errServer⟩ (fun _ => Except.error ⟨"u"⟩) "st").1 = none
    ∧ (Table.ListStreams ⟨"tbl", errServer⟩ (fun _ => Except.error ⟨"u"⟩)).1 = none
    ∧ (Table.GetShardIteratorWithSeqNumber ⟨"tbl", errServer⟩ (fun _ => Except.error ⟨"u"⟩)
        "st" "sh" ShardIteratorLatest "").1 = ""
    ∧ ((Table.GetRecordsWithLimit ⟨"tbl", errServer⟩ (fun _ => Except.error ⟨"u"⟩) "it" 0).1 = ""
        ∧ (Table.GetRecordsWithLimit ⟨"tbl", errServer⟩ (fun _ => Except.error ⟨"u"⟩) "it" 0).2.1 = none) :=
  ⟨(error_implies_zero_values errServer (fun _ => Except.error ⟨"u"⟩) (fun _ => Except.error ⟨"u"⟩)
      (fun _ => Except.error ⟨"u"⟩) (fun _ => Except.error ⟨"u"⟩)
      "tbl" "st" "sh" "it" ShardIteratorLatest "" 0).1 rfl,
   (error_implies_zero_values errServer (fun _ => Except.error ⟨"u"⟩) (fun _ => Except.error ⟨"u"⟩)
      (fun _ => Except.error ⟨"u"⟩) (fun _ => Except.error ⟨"u"⟩)
      "tbl" "st" "sh" "it" ShardIteratorLatest "" 0).2.1 rfl,
   (error_implies_zero_values errServer (fun _ => Except.error ⟨"u"⟩) (fun _ => Except.error ⟨"u"⟩)
      (fun _ => Except.error ⟨"u"⟩) (fun _ => Except.error ⟨"u"⟩)
      "tbl" "st" "sh" "it" ShardIteratorLatest "" 0).2.2.1 rfl,
   (error_implies_zero_values errServer (fun _ => Except.error ⟨"u"⟩) (fun _ => Except.error ⟨"u"⟩)
      (fun _ => Except.error ⟨"u"⟩) (fun _ => Except.error ⟨"u"⟩)
      "tbl" "st" "sh" "it" ShardIteratorLatest "" 0).2.2.2 rfl⟩

/-- The `ListStreams` behaviour as the spec states it: a paginated
provider, keyed by the last-evaluated-stream-id cursor (`none` for the
first page, a page's non-empty `LastEvaluatedStreamId` for the next), is
followed to completion and the pages' stream ids are concatenated in
order.  Fuel bounds the recursion. -/
def listStreamsAllPages (pages : Option String → listStreamsResponse) :
    Nat → Option String → List String
  | 0, _ => []
  | Nat.succ fuel, cursor =>
    let r := pages cursor
    if r.LastEvaluatedStreamId = "" then r.StreamIds
    else r.StreamIds ++ listStreamsAllPages pages fuel (some r.LastEvaluatedStreamId)

/-- The provider induced by a paginated `ListStreams` collaborator: since
the query the source sends carries only the table name and no cursor
(`Query.tableByName`), every request is answered with the cursor-`none`
page. -/
def pagedListStreamsServer (pages : Option String → listStreamsResponse) :
    ServerModel listStreamsResponse :=
  ⟨fun _ _ _ => Except.ok (pages none)⟩

/-- A concrete two-page `ListStreams` provider: page one holds `"s1"` and
cursor `"c1"`, page two holds `"s2"` and no further cursor. -/
def twoPageListStreams : Option String → listStreamsResponse
  | none => { LastEvaluatedStreamId := "c1", StreamIds := ["s1"] }
  | some _ => { LastEvaluatedStreamId := "", StreamIds := ["s2"] }

/-- C1 counterexample: against the two-page provider, `ListStreams`
returns only the first page `["s1"]`, while the concatenation of all pages
is `["s1", "s2"]` — the last-evaluated-stream-id cursor is not
followed. -/
theorem listStreams_not_all_pages_cex :
    Table.ListStreams ⟨"tbl", pagedListStreamsServer twoPageListStreams⟩ Except.ok =
      (some ["s1"], none)
    ∧ listStreamsAllPages twoPageListStreams 2 none = ["s1", "s2"]
    ∧ (["s1"] : List String) ≠ ["s1", "s2"] := by
  refine ⟨rfl, rfl, by decide⟩

/-- C1 (amended): `ListStreams` issues a single request carrying only the
table name and returns exactly the first page's stream ids; the
last-evaluated-stream-id cursor is decoded but discarded, and pagination
is not followed. -/
theorem listStreams_returns_first_page (pages : Option String → listStreamsResponse)
    (tname : String) :
    Table.ListStreams ⟨tname, pagedListStreamsServer pages⟩ Except.ok =
      (some (pages none).StreamIds, none) := rfl

/-- The `DescribeStream` shard-list behaviour as the spec states it: a
paginated provider, keyed by the last-evaluated-shard cursor, is followed
to completion and the pages' shard lists are concatenated in order.  Fuel
bounds the recursion. -/
def describeStreamAllShards (pages : Option String → StreamDescriptionT) :
    Nat → Option String → List ShardT
  | 0, _ => []
  | Nat.succ fuel, cursor =>
    let d := pages cursor
    if d.LastEvaluatedShardId = "" then d.Shards
    else d.Shards ++ describeStreamAllShards pages fuel (some d.LastEvaluatedShardId)

/-- The provider induced by a paginated `DescribeStream` collaborator:
since the query the source sends carries only the stream id and no shard
cursor (`Query.describeStreamRequest`), every request is answered with the
cursor-`none` page. -/
def pagedDescribeStreamServer (pages : Option String → StreamDescriptionT) :
    ServerModel describeStreamResponse :=
  ⟨fun _ _ _ => Except.ok ⟨pages none⟩⟩

/-- A root shard used in the pagination counterexample. -/
def shardS0 : ShardT :=
  { ParentShardId := "", SequenceNumberRange := ⟨"100", "1"⟩, ShardId := "S0" }

/-- A child shard used in the pagination counterexample. -/
def shardS1 : ShardT :=
  { ParentShardId := "S0", SequenceNumberRange := ⟨"", "101"⟩, ShardId := "S1" }

/-- A concrete two-page `DescribeStream` provider: the first page carries
shard `S0` and the last-evaluated-shard cursor `"S0"`, the second carries
shard `S1` and no further cursor. -/
def twoPageDescribeStream : Option String → StreamDescriptionT
  | none =>
    { KeySchema := [⟨"id", "HASH"⟩], LastEvaluatedShardId := "S0", Shards := [shardS0],
      StreamARN := "arn:stream", StreamID := "st-1", StreamStatus := StreamStatusActive,
      TableName := "tbl" }
  | some _ =>
    { KeySchema := [⟨"id", "HASH"⟩], LastEvaluatedShardId := "", Shards := [shardS1],
      StreamARN := "arn:stream", StreamID := "st-1", StreamStatus := StreamStatusActive,
      TableName := "tbl" }

/-- C3 counterexample: against the two-page provider, the description
returned by `DescribeStream` holds only the first page's shard `[S0]`,
while the full shard list obtained by following the last-evaluated-shard
cursor is `[S0, S1]`. -/
theorem describeStream_not_all_shards_cex :
    (Table.DescribeStream ⟨"tbl", pagedDescribeStreamServer twoPageDescribeStream⟩
        Except.ok "st-1").1 = some (twoPageDescribeStream none)
    ∧ (twoPageDescribeStream none).Shards = [shardS0]
    ∧ describeStreamAllShards twoPageDescribeStream 2 none = [shardS0, shardS1]
    ∧ ([shardS0] : List ShardT) ≠ [shardS0, shardS1] := by
  refine ⟨rfl, rfl, rfl, by decide⟩

/-- C3 (amended): `DescribeStream` issues a single request carrying only
the stream id and returns the first response page's stream description
unchanged — its shard list is that page's shards only, and its
`LastEvaluatedShardId` cursor is handed to the caller instead of being
followed. -/
theorem describeStream_returns_first_page (pages : Option String → StreamDescriptionT)
    (tname streamId : String) :
    Table.DescribeStream ⟨tname, pagedDescribeStreamServer pages⟩ Except.ok streamId =
      (some (pages none), none) := rfl

/-- A shard-iterator provider that always succeeds with the iterator
`"iter-1"`, whatever combination of iterator type and sequence number the
request carries. -/
def iterServer : ServerModel getShardIteratorResponse :=
  ⟨fun _ _ _ => Except.ok ⟨"iter-1"⟩⟩

/-- C2 counterexample: opening with `AT_SEQUENCE_NUMBER` and no sequence
number, or with `TRIM_HORIZON` and a sequence number supplied, is not
rejected with `InvalidPolicy` — both calls succeed with no error at all,
the inconsistent combination having been forwarded to the provider. -/
theorem getShardIterator_no_invalid_policy_cex :
    Table.GetShardIteratorWithSeqNumber ⟨"tbl", iterServer⟩ Except.ok
        "st-1" "S0" ShardIteratorAtSequenceNumber "" = ("iter-1", none)
    ∧ Table.GetShardIteratorWithSeqNumber ⟨"tbl", iterServer⟩ Except.ok
        "st-1" "S0" ShardIteratorAfterSequenceNumber "" = ("iter-1", none)
    ∧ Table.GetShardIteratorWithSeqNumber ⟨"tbl", iterServer⟩ Except.ok
        "st-1" "S0" ShardIteratorTrimHorizon "42" = ("iter-1", none)
    ∧ Table.GetShardIteratorWithSeqNumber ⟨"tbl", iterServer⟩ Except.ok
        "st-1" "S0" ShardIteratorLatest "42" = ("iter-1", none) :=
  ⟨rfl, rfl, rfl, rfl⟩

/-- C2 (amended): `GetShardIteratorWithSeqNumber` performs no local
validation of the policy/sequence-number combination: for every iterator
type and sequence number, including the inconsistent combinations, the
parameters are forwarded verbatim to the provider and the provider's
answer is returned unchanged. -/
theorem getShardIterator_forwards_combination {Raw : Type} (sm : ServerModel Raw)
    (unmarshal : Raw → Except GoErr getShardIteratorResponse)
    (tname streamId shardId : String) (shardIteratorType : ShardIteratorType)
    (seqNumber : String) (raw : Raw) (r : getShardIteratorResponse)
    (hq : sm.queryServer 0 (target "GetShardIterator")
        (Query.getShardIteratorRequest streamId shardId shardIteratorType seqNumber) =
      Except.ok raw)
    (hu : unmarshal raw = Except.ok r) :
    Table.GetShardIteratorWithSeqNumber ⟨tname, sm⟩ unmarshal streamId shardId
        shardIteratorType seqNumber = (r.ShardIterator, none) := by
  simp only [Table.GetShardIteratorWithSeqNumber, hq, hu]

/-- Witness for the amended C2 at the inconsistent combination
`AT_SEQUENCE_NUMBER` with no sequence number. -/
theorem getShardIterator_forwards_combination_witness :
    Table.GetShardIteratorWithSeqNumber ⟨"tbl", iterServer⟩ Except.ok
        "st-1" "S0" ShardIteratorAtSequenceNumber "" = ("iter-1", none) :=
  getShardIterator_forwards_combination iterServer Except.ok "tbl" "st-1" "S0"
    ShardIteratorAtSequenceNumber "" ⟨"iter-1"⟩ ⟨"iter-1"⟩ rfl rfl

/-- Modelled from the spec: `ThrottledRetryable` failures are the
throttling conditions of §7, identified by their error code. -/
def isThrottled (e : GoErr) : Bool :=
  e.code == "ThrottledRetryable"

/-- One fetch attempt at a given attempt index: the same
query/decode/return pipeline as `Table.GetRecordsWithLimit`, with the
oracle consulted at attempt `n` instead of `0`. -/
def getRecordsAttempt {Raw : Type} (sm : ServerModel Raw)
    (unmarshal : Raw → Except GoErr getRecordsResponse)
    (shardIterator : String) (limit : Int) (n : Nat) :
    String × Option (List RecordT) × Option GoErr :=
  match sm.queryServer n (target "GetRecords") (Query.getRecordsRequest shardIterator limit) with
  | Except.error err => ("", none, some err)
  | Except.ok jsonResponse =>
    match unmarshal jsonResponse with
    | Except.error err => ("", none, some err)
    | Except.ok r => (r.NextShardIterator, some r.Records, none)

/-- Modelled from the spec: the retrying fetch of §7 — a throttled attempt
is retried (with backoff, which has no observable effect on the value
returned) up to the given retry budget, and only after the budget is spent
is the throttling failure surfaced; other outcomes are returned at
once. -/
def getRecordsWithRetry {Raw : Type} (sm : ServerModel Raw)
    (unmarshal : Raw → Except GoErr getRecordsResponse)
    (shardIterator : String) (limit : Int) :
    Nat → Nat → String × Option (List RecordT) × Option GoErr
  | n, 0 => getRecordsAttempt sm unmarshal shardIterator limit n
  | n, Nat.succ budget =>
    match getRecordsAttempt sm unmarshal shardIterator limit n with
    | (next, recs, some e) =>
      if isThrottled e then getRecordsWithRetry sm unmarshal shardIterator limit (n + 1) budget
      else (next, recs, some e)
    | ok => ok

/-- A provider that is throttled on the first attempt and would serve
`samplePage` on any retry. -/
def throttleOnceServer : ServerModel getRecordsResponse :=
  ⟨fun n _ _ =>
    if n = 0 then Except.error ⟨"ThrottledRetryable"⟩ else Except.ok samplePage⟩

/-- C4 counterexample: against a provider that is throttled only on the
first attempt, `GetRecordsWithLimit` surfaces the throttling error on its
first occurrence, while even a single local retry (the spec's behaviour)
would have returned the page — no local retry with backoff is
performed. -/
theorem getRecords_no_retry_cex :
    Table.GetRecordsWithLimit ⟨"tbl", throttleOnceServer⟩ Except.ok "it-0" 0 =
      ("", none, some ⟨"ThrottledRetryable"⟩)
    ∧ getRecordsWithRetry throttleOnceServer Except.ok "it-0" 0 0 1 =
      ("next-1", some [sampleRecord], none)
    ∧ (("", none, some ⟨"ThrottledRetryable"⟩) :
        String × Option (List RecordT) × Option GoErr) ≠
      ("next-1", some [sampleRecord], none) := by
  refine ⟨rfl, rfl, by decide⟩

/-- A provider that is throttled on every attempt. -/
def alwaysThrottleServer : ServerModel getRecordsResponse :=
  ⟨fun _ _ _ => Except.error ⟨"ThrottledRetryable"⟩⟩

/-- C4 (amended): `GetRecordsWithLimit` performs no local retry: whatever
error the provider returns on the first attempt — throttling included — is
surfaced to the caller at once, and the result never depends on what the
provider would answer on later attempts. -/
theorem getRecords_surfaces_first_error {Raw : Type} (sm sm2 : ServerModel Raw)
    (unmarshal : Raw → Except GoErr getRecordsResponse)
    (tname shardIterator : String) (limit : Int) (e : GoErr)
    (hagree : ∀ tgt q, sm.queryServer 0 tgt q = sm2.queryServer 0 tgt q)
    (herr : sm.queryServer 0 (target "GetRecords") (Query.getRecordsRequest shardIterator limit) =
      Except.error e) :
    Table.GetRecordsWithLimit ⟨tname, sm⟩ unmarshal shardIterator limit = ("", none, some e)
    ∧ Table.GetRecordsWithLimit ⟨tname, sm⟩ unmarshal shardIterator limit =
        Table.GetRecordsWithLimit ⟨tname, sm2⟩ unmarshal shardIterator limit := by
  have h2 : sm2.queryServer 0 (target "GetRecords")
      (Query.getRecordsRequest shardIterator limit) = Except.error e := by
    rw [← hagree]
    exact herr
  exact ⟨by simp only [Table.GetRecordsWithLimit, herr],
    by simp only [Table.GetRecordsWithLimit, herr, h2]⟩

/-- Witness for the amended C4: the throttled first attempt is surfaced,
and the result agrees with the one against a provider that throttles
forever, although the two providers differ from attempt `1` on. -/
theorem getRecords_surfaces_first_error_witness :
    Table.GetRecordsWithLimit ⟨"tbl", throttleOnceServer⟩ Except.ok "it-0" 0 =
      ("", none, some ⟨"ThrottledRetryable"⟩)
    ∧ Table.GetRecordsWithLimit ⟨"tbl", throttleOnceServer⟩ Except.ok "it-0" 0 =
        Table.GetRecordsWithLimit ⟨"tbl", alwaysThrottleServer⟩ Except.ok "it-0" 0 :=
  getRecords_surfaces_first_error throttleOnceServer alwaysThrottleServer Except.ok
    "tbl" "it-0" 0 ⟨"ThrottledRetryable"⟩ (fun _ _ => rfl) rfl

/-- Modelled from the spec: the shard identifiers present in a topology
snapshot (the Shard Tree is keyed by shard id, §9). -/
def shardIds (shards : List ShardT) : List String :=
  shards.map (fun s => s.ShardId)

/-- Modelled from the spec: `eligibleShards` of the Shard Tree (§4.2) — a
shard is eligible once its parent is absent (no parent id, or the parent
is not part of the topology) or is a member of the completed set, and a
shard already completed is never eligible again. -/
def eligibleShards (shards : List ShardT) (completed : List String) : List ShardT :=
  shards.filter (fun s => decide (s.ShardId ∉ completed ∧
    (s.ParentShardId = "" ∨ s.ParentShardId ∉ shardIds shards ∨ s.ParentShardId ∈ completed)))

/-- Modelled from the spec: `markCompleted` of the Shard Tree (§4.2) —
irreversibly records a shard as fully drained. -/
def markCompleted (completed : List String) (shardId : String) : List String :=
  shardId :: completed

/-- Membership after a sequence of `markCompleted` operations: the
completed set only ever grows. -/
theorem mem_foldl_markCompleted (a : String) (ops : List String) :
    ∀ completed : List String,
      (a ∈ ops.foldl markCompleted completed ↔ a ∈ completed ∨ a ∈ ops) := by
  induction ops with
  | nil => intro completed; simp
  | cons x xs ih =>
    intro completed
    rw [List.foldl_cons]
    rw [ih (markCompleted completed x)]
    simp [markCompleted, List.mem_cons]
    tauto

/-- C6: for every topology and every sequence of `markCompleted`
operations, a shard reported eligible by the Shard Tree never has a parent
that is present in the topology yet outside the completed set, and was
never itself marked completed — neither before the sequence nor during
it. -/
theorem eligible_parent_completed_not_repeated (shards : List ShardT)
    (completed ops : List String) (s : ShardT)
    (h : s ∈ eligibleShards shards (ops.foldl markCompleted completed)) :
    (s.ParentShardId ≠ "" → s.ParentShardId ∈ shardIds shards →
      s.ParentShardId ∈ ops.foldl markCompleted completed)
    ∧ s.ShardId ∉ completed ∧ s.ShardId ∉ ops := by
  obtain ⟨hmem, hp⟩ := List.mem_filter.mp h
  rw [decide_eq_true_eq] at hp
  obtain ⟨hnotc, hpar⟩ := hp
  refine ⟨?_, ?_, ?_⟩
  · intro hne hin
    rcases hpar with h1 | h2 | h3
    · exact absurd h1 hne
    · exact absurd hin h2
    · exact h3
  · intro hc
    exact hnotc ((mem_foldl_markCompleted _ _ _).mpr (Or.inl hc))
  · intro hc
    exact hnotc ((mem_foldl_markCompleted _ _ _).mpr (Or.inr hc))

/-- Witness for C6: in the topology `{S0, S1}` with `S1` child of `S0`,
after marking `S0` completed the eligible shard `S1` has its parent in the
completed set and was itself never completed. -/
theorem eligible_parent_completed_not_repeated_witness :
    (shardS1.ParentShardId ≠ "" → shardS1.ParentShardId ∈ shardIds [shardS0, shardS1] →
      shardS1.ParentShardId ∈ List.foldl markCompleted [] ["S0"])
    ∧ shardS1.ShardId ∉ ([] : List String) ∧ shardS1.ShardId ∉ ["S0"] :=
  eligible_parent_completed_not_repeated [shardS0, shardS1] [] ["S0"] shardS1 (by decide)
